import Mathlib

/-!
Shallow embedding of the conversation/request controller and step-log
synthesizer of `src/frontend/hooks/useAgent.ts`.

Modelling conventions:
* `generateId` (`Math.random().toString(36)...` in the source) is modelled as a
  fresh-id counter `nextId` threaded through the state, matching the intent of the source that ids are unique.
* `Math.floor(Math.random() * n)` is modelled as `g k % n` for an arbitrary
  entropy stream `g : Nat → Nat`, which yields exactly the values `0 .. n-1`
  the source expression can produce; `k` is the fresh-id counter at the draw.
* The outcome of `await fetch(...)` followed by `await response.json()` is a
  parameter `result : Except Unit ProcessResponse`; `Except.error` models any
  thrown error (network failure or malformed body), `Except.ok` a parsed body.
* `setTimeout(() => setAgentStatus("ready"), 3000)` is modelled by recording
  the scheduled delay in `pendingResetDelay` and by `fireErrorReset`, the
  callback of the timer.
* `new Date()` timestamps read a ghost clock `now` held in the state.
* The ghost field `statusLog` records every status assigned via
  `setAgentStatus`, in order, so that temporal claims about status
  transitions can be stated.
-/

namespace SentinAI

/-- Status union `AgentStatus` from useAgent.ts. -/
inductive AgentStatus
  | ready
  | thinking
  | executing
  | error
deriving DecidableEq, Repr

/-- Message role: `"user" | "assistant"`. -/
inductive Role
  | user
  | assistant
deriving DecidableEq, Repr

/-- Step categories, the `type` field of `ThinkingStep` in useAgent.ts. -/
inductive StepType
  | audio
  | document
  | classify
  | reasoning
  | general
deriving DecidableEq, Repr

/-- Step lifecycle, the `status` field of `ThinkingStep` in useAgent.ts. -/
inductive StepStatus
  | pending
  | running
  | completed
  | error
deriving DecidableEq, Repr

/-- Interface `Message` from useAgent.ts (ids as naturals, `Date` as a tick). -/
structure Message where
  id : Nat
  role : Role
  content : String
  timestamp : Nat
  file : Option String := none
deriving DecidableEq, Repr

/-- Interface `ThinkingStep` from useAgent.ts. -/
structure ThinkingStep where
  id : Nat
  type : StepType
  title : String
  description : String
  status : StepStatus
  duration : Option Nat := none
deriving DecidableEq, Repr

/-- Interface `ProcessResponse` from useAgent.ts.  The `response` field is declared `string` in the
TypeScript type but may be absent at runtime (the code guards with `||`), so it
is an `Option` here. -/
structure ProcessResponse where
  status : String
  response : Option String
  file_processed : Option String := none
  intermediate_steps : Option String := none
deriving DecidableEq, Repr

/-- The `File` values `uploadFile` reads: the `name` and declared `type`. -/
structure FileMeta where
  name : String
  type : String
deriving DecidableEq, Repr

/-- JavaScript `a.includes(b)` substring containment on strings. -/
def jsIncludes (s pat : String) : Bool :=
  decide (pat.data <:+: s.data)

/-- JavaScript `s.trim()`: strip leading and trailing whitespace. -/
def jsTrim (s : String) : String :=
  ⟨((s.data.dropWhile Char.isWhitespace).reverse.dropWhile
      Char.isWhitespace).reverse⟩

/-- JavaScript `s.startsWith(pat)`. -/
def jsStartsWith (s pat : String) : Bool :=
  decide (pat.data <+: s.data)

/-- JavaScript `x || d` for an optional string `x`: the default is taken when
`x` is absent or the empty string (both falsy). -/
def jsOrString : Option String → String → String
  | some s, d => if s = "" then d else s
  | none, d => d

/-- JavaScript truthiness of an optional string: present and non-empty. -/
def jsTruthy : Option String → Bool
  | some s => s ≠ ""
  | none => false

/-- The state of the hook: `messages`, `isProcessing`, `agentStatus`,
`thinkingSteps`, plus the modelling fields described in the header. -/
structure AgentState where
  messages : List Message
  isProcessing : Bool
  agentStatus : AgentStatus
  thinkingSteps : List ThinkingStep
  pendingResetDelay : Option Nat
  statusLog : List AgentStatus
  nextId : Nat
  now : Nat
deriving DecidableEq, Repr

/-- Function `setAgentStatus`, with the assignment also recorded in the ghost log. -/
def setAgentStatus (v : AgentStatus) (s : AgentState) : AgentState :=
  { s with agentStatus := v, statusLog := s.statusLog ++ [v] }

/-- Function `generateId`, modelled as a fresh-id counter. -/
def generateId (s : AgentState) : Nat × AgentState :=
  (s.nextId, { s with nextId := s.nextId + 1 })

/-- The "transcribe_audio" step pushed by `parseIntermediateSteps`;
`Math.floor(Math.random() * 2000) + 500` becomes `g i % 2000 + 500`. -/
def audioStep (g : Nat → Nat) (i : Nat) : ThinkingStep :=
  { id := i, type := .audio, title := "Audio Transcription",
    description := "Transcribing audio using Whisper AI",
    status := .completed, duration := some (g i % 2000 + 500) }

/-- The "query_document" step pushed by `parseIntermediateSteps`. -/
def documentStep (g : Nat → Nat) (i : Nat) : ThinkingStep :=
  { id := i, type := .document, title := "Document Analysis",
    description := "Extracting information using LayoutLM",
    status := .completed, duration := some (g i % 3000 + 1000) }

/-- The "classify_ticket" step pushed by `parseIntermediateSteps`. -/
def classifyStep (g : Nat → Nat) (i : Nat) : ThinkingStep :=
  { id := i, type := .classify, title := "Ticket Classification",
    description := "Categorizing ticket using ML classifier",
    status := .completed, duration := some (g i % 500 + 100) }

/-- The fallback "reasoning" step pushed by `parseIntermediateSteps`. -/
def reasoningStep (g : Nat → Nat) (i : Nat) : ThinkingStep :=
  { id := i, type := .reasoning, title := "Agent Reasoning",
    description := "Processing request with Gemini LLM",
    status := .completed, duration := some (g i % 1500 + 500) }

/-- Function `parseIntermediateSteps` from useAgent.ts.  Takes the entropy stream and
the current fresh-id counter; returns the synthesized steps and the advanced
counter. -/
def parseIntermediateSteps (g : Nat → Nat) (nid : Nat) (stepsString : String) :
    List ThinkingStep × Nat :=
  let acc : List ThinkingStep × Nat := ([], nid)
  let acc :=
    if jsIncludes stepsString "transcribe_audio" then
      (acc.1 ++ [audioStep g acc.2], acc.2 + 1)
    else acc
  let acc :=
    if jsIncludes stepsString "query_document" then
      (acc.1 ++ [documentStep g acc.2], acc.2 + 1)
    else acc
  let acc :=
    if jsIncludes stepsString "classify_ticket" then
      (acc.1 ++ [classifyStep g acc.2], acc.2 + 1)
    else acc
  if acc.1.length = 0 then
    ([reasoningStep g acc.2], acc.2 + 1)
  else acc

/-- The fields of a `ThinkingStep` other than the id
(`Omit<ThinkingStep, "id">` in the source). -/
structure StepInit where
  type : StepType
  title : String
  description : String
  status : StepStatus
  duration : Option Nat := none
deriving DecidableEq, Repr

/-- Function `addThinkingStep`: appends a step with a fresh id and returns the id. -/
def addThinkingStep (s : AgentState) (step : StepInit) : Nat × AgentState :=
  let p := generateId s
  (p.1, { p.2 with
          thinkingSteps := p.2.thinkingSteps ++
            [{ id := p.1, type := step.type, title := step.title,
               description := step.description, status := step.status,
               duration := step.duration }] })

/-- The per-element merge that the `map` in `updateThinkingStep` performs. -/
def updStep (targetId : Nat) (f : ThinkingStep → ThinkingStep)
    (st : ThinkingStep) : ThinkingStep :=
  if st.id = targetId then f st else st

/-- Function `updateThinkingStep`: maps the merge over the step list. -/
def updateThinkingStep (s : AgentState) (id : Nat)
    (f : ThinkingStep → ThinkingStep) : AgentState :=
  { s with thinkingSteps := s.thinkingSteps.map (updStep id f) }

/-- The fixed assistant error message in the catch block of `sendMessage`. -/
def sendErrorText : String :=
  "I encountered an error processing your request. Please ensure the backend server is running."

/-- The fixed assistant error message in the catch block of `uploadFile`. -/
def uploadErrorText : String :=
  "Failed to process the file. Please ensure the backend server is running and try again."

/-- Function `sendMessage` from useAgent.ts, as one straight-line transaction (the hook
is the only writer and the `isProcessing` gate serializes submissions).
`result` is the outcome of the fetch + JSON parse. -/
def sendMessage (g : Nat → Nat) (s : AgentState) (content : String)
    (result : Except Unit ProcessResponse) : AgentState :=
  if jsTrim content = "" || s.isProcessing then s else
  let p := generateId s
  let userMessage : Message :=
    { id := p.1, role := .user, content := content, timestamp := p.2.now }
  let s := { p.2 with messages := p.2.messages ++ [userMessage] }
  let s := { s with isProcessing := true }
  let s := setAgentStatus .thinking s
  let q := addThinkingStep s
    { type := .reasoning, title := "Processing Request",
      description := "Analyzing your message...", status := .running }
  let thinkingId := q.1
  let s := setAgentStatus .executing q.2
  let s :=
    match result with
    | .ok data =>
      let s := updateThinkingStep s thinkingId
        (fun st => { st with status := .completed, duration := some 1200 })
      let s :=
        if jsTruthy data.intermediate_steps then
          let parsed :=
            parseIntermediateSteps g s.nextId (data.intermediate_steps.getD "")
          { s with thinkingSteps := s.thinkingSteps ++ parsed.1,
                   nextId := parsed.2 }
        else s
      let r := generateId s
      let assistantMessage : Message :=
        { id := r.1, role := .assistant,
          content := jsOrString data.response "I processed your request.",
          timestamp := r.2.now }
      let s := { r.2 with messages := r.2.messages ++ [assistantMessage] }
      setAgentStatus .ready s
    | .error _ =>
      let s := updateThinkingStep s thinkingId
        (fun st => { st with status := .error })
      let r := generateId s
      let errorMessage : Message :=
        { id := r.1, role := .assistant, content := sendErrorText,
          timestamp := r.2.now }
      let s := { r.2 with messages := r.2.messages ++ [errorMessage] }
      let s := setAgentStatus .error s
      { s with pendingResetDelay := some 3000 }
  { s with isProcessing := false }

/-- The file-type classification computed at the top of `uploadFile`. -/
def fileDisplayType (t : String) : StepType :=
  if jsStartsWith t "audio" then .audio
  else if t = "application/pdf" then .document
  else if jsStartsWith t "image" then .document
  else .general

/-- Function `uploadFile` from useAgent.ts; `file` is an `Option` because the source
guards `if (!file || isProcessing) return`. -/
def uploadFile (g : Nat → Nat) (s : AgentState) (file : Option FileMeta)
    (query : String) (result : Except Unit ProcessResponse) : AgentState :=
  match file with
  | none => s
  | some f =>
    if s.isProcessing then s else
    let p := generateId s
    let userMessage : Message :=
      { id := p.1, role := .user,
        content := if query = "" then "Analyze this file" else query,
        timestamp := p.2.now, file := some f.name }
    let s := { p.2 with messages := p.2.messages ++ [userMessage] }
    let s := { s with isProcessing := true }
    let s := setAgentStatus .thinking s
    let fileType := fileDisplayType f.type
    let q := addThinkingStep s
      { type := fileType,
        title := if fileType = .audio then "Audio Processing"
                 else "Document Processing",
        description := "Uploading " ++ f.name ++ "...", status := .running }
    let uploadStepId := q.1
    let s := setAgentStatus .executing q.2
    let s :=
      match result with
      | .ok data =>
        let s := updateThinkingStep s uploadStepId
          (fun st => { st with status := .completed,
                               description := "Processed " ++ f.name,
                               duration := some 2500 })
        let s :=
          if jsTruthy data.intermediate_steps then
            let parsed :=
              parseIntermediateSteps g s.nextId
                (data.intermediate_steps.getD "")
            { s with thinkingSteps := s.thinkingSteps ++ parsed.1,
                     nextId := parsed.2 }
          else s
        let r := generateId s
        let assistantMessage : Message :=
          { id := r.1, role := .assistant,
            content := jsOrString data.response "File processed successfully.",
            timestamp := r.2.now }
        let s := { r.2 with messages := r.2.messages ++ [assistantMessage] }
        setAgentStatus .ready s
      | .error _ =>
        let s := updateThinkingStep s uploadStepId
          (fun st => { st with status := .error })
        let r := generateId s
        let errorMessage : Message :=
          { id := r.1, role := .assistant, content := uploadErrorText,
            timestamp := r.2.now }
        let s := { r.2 with messages := r.2.messages ++ [errorMessage] }
        let s := setAgentStatus .error s
        { s with pendingResetDelay := some 3000 }
    { s with isProcessing := false }

/-- Function `clearMessages` from useAgent.ts. -/
def clearMessages (s : AgentState) : AgentState :=
  { s with messages := [], thinkingSteps := [] }

/-- The callback of `setTimeout(() => setAgentStatus("ready"), 3000)`, i.e.
the timer firing; the scheduled delay is consumed. -/
def fireErrorReset (s : AgentState) : AgentState :=
  { setAgentStatus .ready s with pendingResetDelay := none }

/-- The initial state of the hook: empty history, not processing, status ready. -/
def initialState : AgentState :=
  { messages := [], isProcessing := false, agentStatus := .ready,
    thinkingSteps := [], pendingResetDelay := none, statusLog := [],
    nextId := 0, now := 0 }

/-- All existing step ids are below the fresh-id counter (maintained by every
operation; holds in the initial state). -/
def stepIdsFresh (s : AgentState) : Prop :=
  ∀ st ∈ s.thinkingSteps, st.id < s.nextId

instance (s : AgentState) : Decidable (stepIdsFresh s) := by
  unfold stepIdsFresh; infer_instance

/-- A constant entropy stream, used to instantiate witnesses. -/
def g0 : Nat → Nat := fun _ => 0

/-- A sample parsed response body, used to instantiate witnesses. -/
def r0 : ProcessResponse :=
  { status := "success", response := some "hi there",
    intermediate_steps := some "classify_ticket" }

/-- A sample file, used to instantiate witnesses. -/
def f0 : FileMeta := { name := "notes.pdf", type := "application/pdf" }

end SentinAI

namespace SentinAI

/-- Mapping the update merge over steps whose ids all differ from the target
leaves the list unchanged. -/
theorem map_updStep_of_ne (l : List ThinkingStep) (tid : Nat)
    (f : ThinkingStep → ThinkingStep) (h : ∀ st ∈ l, st.id ≠ tid) :
    l.map (updStep tid f) = l := by
  induction l with
  | nil => rfl
  | cons a as ih =>
    simp only [List.map_cons, List.cons.injEq]
    constructor
    · simp [updStep, h a (by simp)]
    · exact ih (fun st hst => h st (by simp [hst]))

/-- Step ids below the counter are in particular not the next two ids. -/
theorem stepIdsFresh_ne (s : AgentState) (h : stepIdsFresh s) (k : Nat)
    (hk : s.nextId ≤ k) : ∀ st ∈ s.thinkingSteps, st.id ≠ k := by
  intro st hst
  exact Nat.ne_of_lt (Nat.lt_of_lt_of_le (h st hst) hk)

/-- Full-state characterization of a failed `sendMessage`. -/
theorem sendMessage_error_spec (g : Nat → Nat) (s : AgentState)
    (content : String) (h1 : jsTrim content ≠ "") (h2 : s.isProcessing = false) :
    sendMessage g s content (.error ()) =
      { messages := s.messages ++
          [{ id := s.nextId, role := .user, content := content,
             timestamp := s.now },
           { id := s.nextId + 2, role := .assistant, content := sendErrorText,
             timestamp := s.now }],
        isProcessing := false,
        agentStatus := .error,
        thinkingSteps :=
          (s.thinkingSteps.map
            (updStep (s.nextId + 1) (fun st => { st with status := .error }))) ++
          [{ id := s.nextId + 1, type := .reasoning,
             title := "Processing Request",
             description := "Analyzing your message...", status := .error }],
        pendingResetDelay := some 3000,
        statusLog := s.statusLog ++ [.thinking, .executing, .error],
        nextId := s.nextId + 3,
        now := s.now } := by
  simp [sendMessage, generateId, setAgentStatus, addThinkingStep,
    updateThinkingStep, updStep, h1, h2]

end SentinAI

namespace SentinAI

/-- Full-state characterization of a successful `sendMessage` whose response
carries a truthy `intermediate_steps` string. -/
theorem sendMessage_ok_steps_spec (g : Nat → Nat) (s : AgentState)
    (content : String) (data : ProcessResponse) (h1 : jsTrim content ≠ "")
    (h2 : s.isProcessing = false)
    (h3 : jsTruthy data.intermediate_steps = true) :
    sendMessage g s content (.ok data) =
      { messages := s.messages ++
          [{ id := s.nextId, role := .user, content := content,
             timestamp := s.now },
           { id := (parseIntermediateSteps g (s.nextId + 2)
                      (data.intermediate_steps.getD "")).2,
             role := .assistant,
             content := jsOrString data.response "I processed your request.",
             timestamp := s.now }],
        isProcessing := false,
        agentStatus := .ready,
        thinkingSteps :=
          (s.thinkingSteps.map
            (updStep (s.nextId + 1)
              (fun st => { st with status := .completed,
                                   duration := some 1200 }))) ++
          [{ id := s.nextId + 1, type := .reasoning,
             title := "Processing Request",
             description := "Analyzing your message...", status := .completed,
             duration := some 1200 }] ++
          (parseIntermediateSteps g (s.nextId + 2)
             (data.intermediate_steps.getD "")).1,
        pendingResetDelay := s.pendingResetDelay,
        statusLog := s.statusLog ++ [.thinking, .executing, .ready],
        nextId := (parseIntermediateSteps g (s.nextId + 2)
                     (data.intermediate_steps.getD "")).2 + 1,
        now := s.now } := by
  simp [sendMessage, generateId, setAgentStatus, addThinkingStep,
    updateThinkingStep, updStep, h1, h2, h3]

/-- Full-state characterization of a successful `sendMessage` whose response
has an absent or empty `intermediate_steps` field. -/
theorem sendMessage_ok_nosteps_spec (g : Nat → Nat) (s : AgentState)
    (content : String) (data : ProcessResponse) (h1 : jsTrim content ≠ "")
    (h2 : s.isProcessing = false)
    (h3 : jsTruthy data.intermediate_steps = false) :
    sendMessage g s content (.ok data) =
      { messages := s.messages ++
          [{ id := s.nextId, role := .user, content := content,
             timestamp := s.now },
           { id := s.nextId + 2, role := .assistant,
             content := jsOrString data.response "I processed your request.",
             timestamp := s.now }],
        isProcessing := false,
        agentStatus := .ready,
        thinkingSteps :=
          (s.thinkingSteps.map
            (updStep (s.nextId + 1)
              (fun st => { st with status := .completed,
                                   duration := some 1200 }))) ++
          [{ id := s.nextId + 1, type := .reasoning,
             title := "Processing Request",
             description := "Analyzing your message...", status := .completed,
             duration := some 1200 }],
        pendingResetDelay := s.pendingResetDelay,
        statusLog := s.statusLog ++ [.thinking, .executing, .ready],
        nextId := s.nextId + 3,
        now := s.now } := by
  simp [sendMessage, generateId, setAgentStatus, addThinkingStep,
    updateThinkingStep, updStep, h1, h2, h3]

/-- Full-state characterization of a failed `uploadFile`. -/
theorem uploadFile_error_spec (g : Nat → Nat) (s : AgentState) (f : FileMeta)
    (query : String) (h2 : s.isProcessing = false) :
    uploadFile g s (some f) query (.error ()) =
      { messages := s.messages ++
          [{ id := s.nextId, role := .user,
             content := if query = "" then "Analyze this file" else query,
             timestamp := s.now, file := some f.name },
           { id := s.nextId + 2, role := .assistant, content := uploadErrorText,
             timestamp := s.now }],
        isProcessing := false,
        agentStatus := .error,
        thinkingSteps :=
          (s.thinkingSteps.map
            (updStep (s.nextId + 1) (fun st => { st with status := .error }))) ++
          [{ id := s.nextId + 1, type := fileDisplayType f.type,
             title := if fileDisplayType f.type = .audio then "Audio Processing"
                      else "Document Processing",
             description := "Uploading " ++ f.name ++ "...",
             status := .error }],
        pendingResetDelay := some 3000,
        statusLog := s.statusLog ++ [.thinking, .executing, .error],
        nextId := s.nextId + 3,
        now := s.now } := by
  simp [uploadFile, generateId, setAgentStatus, addThinkingStep,
    updateThinkingStep, updStep, h2]

/-- Full-state characterization of a successful `uploadFile` whose response
carries a truthy `intermediate_steps` string. -/
theorem uploadFile_ok_steps_spec (g : Nat → Nat) (s : AgentState) (f : FileMeta)
    (query : String) (data : ProcessResponse) (h2 : s.isProcessing = false)
    (h3 : jsTruthy data.intermediate_steps = true) :
    uploadFile g s (some f) query (.ok data) =
      { messages := s.messages ++
          [{ id := s.nextId, role := .user,
             content := if query = "" then "Analyze this file" else query,
             timestamp := s.now, file := some f.name },
           { id := (parseIntermediateSteps g (s.nextId + 2)
                      (data.intermediate_steps.getD "")).2,
             role := .assistant,
             content := jsOrString data.response "File processed successfully.",
             timestamp := s.now }],
        isProcessing := false,
        agentStatus := .ready,
        thinkingSteps :=
          (s.thinkingSteps.map
            (updStep (s.nextId + 1)
              (fun st => { st with status := .completed,
                                   description := "Processed " ++ f.name,
                                   duration := some 2500 }))) ++
          [{ id := s.nextId + 1, type := fileDisplayType f.type,
             title := if fileDisplayType f.type = .audio then "Audio Processing"
                      else "Document Processing",
             description := "Processed " ++ f.name, status := .completed,
             duration := some 2500 }] ++
          (parseIntermediateSteps g (s.nextId + 2)
             (data.intermediate_steps.getD "")).1,
        pendingResetDelay := s.pendingResetDelay,
        statusLog := s.statusLog ++ [.thinking, .executing, .ready],
        nextId := (parseIntermediateSteps g (s.nextId + 2)
                     (data.intermediate_steps.getD "")).2 + 1,
        now := s.now } := by
  simp [uploadFile, generateId, setAgentStatus, addThinkingStep,
    updateThinkingStep, updStep, h2, h3]

/-- Full-state characterization of a successful `uploadFile` whose response
has an absent or empty `intermediate_steps` field. -/
theorem uploadFile_ok_nosteps_spec (g : Nat → Nat) (s : AgentState)
    (f : FileMeta) (query : String) (data : ProcessResponse)
    (h2 : s.isProcessing = false)
    (h3 : jsTruthy data.intermediate_steps = false) :
    uploadFile g s (some f) query (.ok data) =
      { messages := s.messages ++
          [{ id := s.nextId, role := .user,
             content := if query = "" then "Analyze this file" else query,
             timestamp := s.now, file := some f.name },
           { id := s.nextId + 2, role := .assistant,
             content := jsOrString data.response "File processed successfully.",
             timestamp := s.now }],
        isProcessing := false,
        agentStatus := .ready,
        thinkingSteps :=
          (s.thinkingSteps.map
            (updStep (s.nextId + 1)
              (fun st => { st with status := .completed,
                                   description := "Processed " ++ f.name,
                                   duration := some 2500 }))) ++
          [{ id := s.nextId + 1, type := fileDisplayType f.type,
             title := if fileDisplayType f.type = .audio then "Audio Processing"
                      else "Document Processing",
             description := "Processed " ++ f.name, status := .completed,
             duration := some 2500 }],
        pendingResetDelay := s.pendingResetDelay,
        statusLog := s.statusLog ++ [.thinking, .executing, .ready],
        nextId := s.nextId + 3,
        now := s.now } := by
  simp [uploadFile, generateId, setAgentStatus, addThinkingStep,
    updateThinkingStep, updStep, h2, h3]

end SentinAI

namespace SentinAI

/-- A state with a request in flight, used to instantiate witnesses. -/
def busyState : AgentState :=
  { initialState with isProcessing := true, agentStatus := .executing }

/-- A parsed response body with no `intermediate_steps` field, used to
instantiate witnesses. -/
def r1 : ProcessResponse :=
  { status := "success", response := some "done" }

/-- Claim C4: every call to submitText whose content is empty or
whitespace-only, every call to submitFile with no file, and every call to
either while isProcessing is true, leaves the whole state unchanged,
independently of what the network would have returned. -/
theorem submit_guard_noop (g : Nat → Nat) (s : AgentState) (content q : String)
    (f : FileMeta) (result : Except Unit ProcessResponse) :
    (jsTrim content = "" → sendMessage g s content result = s) ∧
    (s.isProcessing = true → sendMessage g s content result = s) ∧
    uploadFile g s none q result = s ∧
    (s.isProcessing = true → uploadFile g s (some f) q result = s) := by
  refine ⟨fun h => ?_, fun h => ?_, rfl, fun h => ?_⟩
  · simp [sendMessage, h]
  · simp [sendMessage, h]
  · simp [uploadFile, h]

/-- Claim C4 witness: the guards at concrete inputs. -/
theorem submit_guard_noop_witness :
    sendMessage g0 initialState "   " (.ok r0) = initialState ∧
    sendMessage g0 busyState "hi" (.ok r0) = busyState ∧
    uploadFile g0 initialState none "q" (.ok r0) = initialState ∧
    uploadFile g0 busyState (some f0) "q" (.ok r0) = busyState :=
  ⟨(submit_guard_noop g0 initialState "   " "q" f0 (.ok r0)).1 (by decide),
   (submit_guard_noop g0 busyState "hi" "q" f0 (.ok r0)).2.1 rfl,
   (submit_guard_noop g0 initialState "hi" "q" f0 (.ok r0)).2.2.1,
   (submit_guard_noop g0 busyState "hi" "q" f0 (.ok r0)).2.2.2 rfl⟩

/-- Claim C7: clear() empties both the message sequence and the thinking-step
sequence from every prior state, and is idempotent. -/
theorem clearMessages_empties_idempotent (s : AgentState) :
    (clearMessages s).messages = [] ∧ (clearMessages s).thinkingSteps = [] ∧
    clearMessages (clearMessages s) = clearMessages s :=
  ⟨rfl, rfl, rfl⟩

/-- Claim C6: on an input containing none of the three marker substrings, the
synthesizer emits exactly one step, of type reasoning. -/
theorem parse_steps_no_marker_reasoning (g : Nat → Nat) (nid : Nat)
    (str : String) (h1 : jsIncludes str "transcribe_audio" = false)
    (h2 : jsIncludes str "query_document" = false)
    (h3 : jsIncludes str "classify_ticket" = false) :
    (parseIntermediateSteps g nid str).1.map ThinkingStep.type =
      [StepType.reasoning] := by
  simp [parseIntermediateSteps, h1, h2, h3, reasoningStep]

/-- Claim C6 witness: the empty string contains no marker. -/
theorem parse_steps_no_marker_reasoning_witness :
    (parseIntermediateSteps g0 0 "").1.map ThinkingStep.type =
      [StepType.reasoning] :=
  parse_steps_no_marker_reasoning g0 0 "" (by decide) (by decide) (by decide)

/-- Claim C5: the emitted step types depend only on which markers occur in the
input, not where; and the required concrete inputs yield [audio, classify] in
the fixed check order. -/
theorem parse_steps_fixed_order :
    (∀ (g g' : Nat → Nat) (n n' : Nat) (s1 s2 : String),
      jsIncludes s1 "transcribe_audio" = jsIncludes s2 "transcribe_audio" →
      jsIncludes s1 "query_document" = jsIncludes s2 "query_document" →
      jsIncludes s1 "classify_ticket" = jsIncludes s2 "classify_ticket" →
      (parseIntermediateSteps g n s1).1.map ThinkingStep.type =
        (parseIntermediateSteps g' n' s2).1.map ThinkingStep.type) ∧
    (∀ (g : Nat → Nat) (n : Nat),
      (parseIntermediateSteps g n
        "ran transcribe_audio then classify_ticket").1.map ThinkingStep.type =
        [StepType.audio, StepType.classify]) ∧
    (∀ (g : Nat → Nat) (n : Nat),
      (parseIntermediateSteps g n
        "classify_ticket then transcribe_audio").1.map ThinkingStep.type =
        [StepType.audio, StepType.classify]) := by
  refine ⟨fun g g' n n' s1 s2 h1 h2 h3 => ?_, fun g n => rfl, fun g n => rfl⟩
  cases hA : jsIncludes s2 "transcribe_audio" <;>
  cases hB : jsIncludes s2 "query_document" <;>
  cases hC : jsIncludes s2 "classify_ticket" <;>
    simp [parseIntermediateSteps, h1, h2, h3, hA, hB, hC,
      audioStep, documentStep, classifyStep, reasoningStep]

/-- Claim C5 witness: marker position is irrelevant at concrete inputs. -/
theorem parse_steps_fixed_order_witness :
    (parseIntermediateSteps g0 0 "x transcribe_audio y").1.map
        ThinkingStep.type =
      (parseIntermediateSteps g0 7 "transcribe_audio").1.map
        ThinkingStep.type ∧
    (parseIntermediateSteps g0 0
        "ran transcribe_audio then classify_ticket").1.map ThinkingStep.type =
      [StepType.audio, StepType.classify] :=
  ⟨parse_steps_fixed_order.1 g0 g0 0 7 "x transcribe_audio y"
      "transcribe_audio" (by decide) (by decide) (by decide),
   parse_steps_fixed_order.2.1 g0 0⟩

end SentinAI

namespace SentinAI

/-- The duration range each synthesized step type draws from, in ms: the
bounds implied by `Math.floor(Math.random() * n) + c` at each push site. -/
def durationInRange : StepType → Nat → Prop
  | .audio, d => 500 ≤ d ∧ d ≤ 2499
  | .document, d => 1000 ≤ d ∧ d ≤ 3999
  | .classify, d => 100 ≤ d ∧ d ≤ 599
  | .reasoning, d => 500 ≤ d ∧ d ≤ 1999
  | .general, _ => False

/-- A synthesized step is completed and carries a duration within the fixed
range for its type. -/
def stepOk (st : ThinkingStep) : Prop :=
  st.status = StepStatus.completed ∧
  ∃ d, st.duration = some d ∧ durationInRange st.type d

theorem audioStep_ok (g : Nat → Nat) (i : Nat) : stepOk (audioStep g i) := by
  refine ⟨rfl, g i % 2000 + 500, rfl, ?_⟩
  have := Nat.mod_lt (g i) (show 0 < 2000 by norm_num)
  simp only [audioStep, durationInRange]
  omega

theorem documentStep_ok (g : Nat → Nat) (i : Nat) :
    stepOk (documentStep g i) := by
  refine ⟨rfl, g i % 3000 + 1000, rfl, ?_⟩
  have := Nat.mod_lt (g i) (show 0 < 3000 by norm_num)
  simp only [documentStep, durationInRange]
  omega

theorem classifyStep_ok (g : Nat → Nat) (i : Nat) :
    stepOk (classifyStep g i) := by
  refine ⟨rfl, g i % 500 + 100, rfl, ?_⟩
  have := Nat.mod_lt (g i) (show 0 < 500 by norm_num)
  simp only [classifyStep, durationInRange]
  omega

theorem reasoningStep_ok (g : Nat → Nat) (i : Nat) :
    stepOk (reasoningStep g i) := by
  refine ⟨rfl, g i % 1500 + 500, rfl, ?_⟩
  have := Nat.mod_lt (g i) (show 0 < 1500 by norm_num)
  simp only [reasoningStep, durationInRange]
  omega

/-- Claim C10: on every input the synthesizer returns between 1 and 3 steps,
each completed with a duration inside the fixed range for its type. -/
theorem parse_steps_bounds (g : Nat → Nat) (n : Nat) (str : String) :
    1 ≤ (parseIntermediateSteps g n str).1.length ∧
    (parseIntermediateSteps g n str).1.length ≤ 3 ∧
    ∀ st ∈ (parseIntermediateSteps g n str).1, stepOk st := by
  cases hA : jsIncludes str "transcribe_audio" <;>
  cases hB : jsIncludes str "query_document" <;>
  cases hC : jsIncludes str "classify_ticket" <;>
    simp [parseIntermediateSteps, hA, hB, hC,
      audioStep_ok, documentStep_ok, classifyStep_ok, reasoningStep_ok]

/-- Claim C10 witness: bounds at the empty input and its single step. -/
theorem parse_steps_bounds_witness :
    1 ≤ (parseIntermediateSteps g0 0 "").1.length ∧
    (parseIntermediateSteps g0 0 "").1.length ≤ 3 ∧
    stepOk (reasoningStep g0 0) :=
  ⟨(parse_steps_bounds g0 0 "").1, (parse_steps_bounds g0 0 "").2.1,
   (parse_steps_bounds g0 0 "").2.2 (reasoningStep g0 0) (by decide)⟩

end SentinAI

namespace SentinAI

/-- Firing the reset timer always lands on ready. -/
theorem fireErrorReset_ready (s : AgentState) :
    (fireErrorReset s).agentStatus = .ready := rfl

/-- Claim C1: on any failed submission through either operation, exactly one
assistant error message telling the user to check the backend is appended
right after the optimistic user message, the in-flight step is marked error,
status becomes error with a 3000 ms reset scheduled, and the scheduled reset
lands on ready. -/
theorem submit_failure_behavior (g : Nat → Nat) (s : AgentState)
    (content : String) (f : FileMeta) (q : String)
    (h1 : jsTrim content ≠ "") (h2 : s.isProcessing = false)
    (h3 : stepIdsFresh s) :
    ((sendMessage g s content (.error ())).messages = s.messages ++
        [{ id := s.nextId, role := .user, content := content,
           timestamp := s.now },
         { id := s.nextId + 2, role := .assistant, content := sendErrorText,
           timestamp := s.now }] ∧
      (sendMessage g s content (.error ())).thinkingSteps = s.thinkingSteps ++
        [{ id := s.nextId + 1, type := .reasoning,
           title := "Processing Request",
           description := "Analyzing your message...", status := .error }] ∧
      (sendMessage g s content (.error ())).agentStatus = .error ∧
      (sendMessage g s content (.error ())).pendingResetDelay = some 3000 ∧
      (fireErrorReset (sendMessage g s content (.error ()))).agentStatus =
        .ready) ∧
    ((uploadFile g s (some f) q (.error ())).messages = s.messages ++
        [{ id := s.nextId, role := .user,
           content := if q = "" then "Analyze this file" else q,
           timestamp := s.now, file := some f.name },
         { id := s.nextId + 2, role := .assistant, content := uploadErrorText,
           timestamp := s.now }] ∧
      (uploadFile g s (some f) q (.error ())).thinkingSteps =
        s.thinkingSteps ++
        [{ id := s.nextId + 1, type := fileDisplayType f.type,
           title := if fileDisplayType f.type = .audio then "Audio Processing"
                    else "Document Processing",
           description := "Uploading " ++ f.name ++ "...",
           status := .error }] ∧
      (uploadFile g s (some f) q (.error ())).agentStatus = .error ∧
      (uploadFile g s (some f) q (.error ())).pendingResetDelay = some 3000 ∧
      (fireErrorReset (uploadFile g s (some f) q (.error ()))).agentStatus =
        .ready) := by
  have hne := stepIdsFresh_ne s h3 (s.nextId + 1) (Nat.le_succ _)
  have e1 := sendMessage_error_spec g s content h1 h2
  have e2 := uploadFile_error_spec g s f q h2
  constructor
  · refine ⟨?_, ?_, ?_, ?_, fireErrorReset_ready _⟩ <;>
      (rw [e1]; try simp [map_updStep_of_ne _ _ _ hne])
  · refine ⟨?_, ?_, ?_, ?_, fireErrorReset_ready _⟩ <;>
      (rw [e2]; try simp [map_updStep_of_ne _ _ _ hne])

/-- Claim C1 witness: failure behavior at concrete inputs. -/
theorem submit_failure_behavior_witness :
    (sendMessage g0 initialState "hello" (.error ())).agentStatus = .error ∧
    (fireErrorReset (sendMessage g0 initialState "hello"
        (.error ()))).agentStatus = .ready ∧
    (uploadFile g0 initialState (some f0) "q" (.error ())).pendingResetDelay =
      some 3000 :=
  ⟨(submit_failure_behavior g0 initialState "hello" f0 "q" (by decide) rfl
      (by decide)).1.2.2.1,
   (submit_failure_behavior g0 initialState "hello" f0 "q" (by decide) rfl
      (by decide)).1.2.2.2.2,
   (submit_failure_behavior g0 initialState "hello" f0 "q" (by decide) rfl
      (by decide)).2.2.2.2.1⟩

end SentinAI

namespace SentinAI

/-- Claim C3: on any successful submission through either operation, exactly
one user message then one assistant message are appended, the in-flight step
is completed in place with the fixed display duration, and status returns to
ready. -/
theorem submit_success_behavior (g : Nat → Nat) (s : AgentState)
    (content : String) (f : FileMeta) (q : String) (data : ProcessResponse)
    (h1 : jsTrim content ≠ "") (h2 : s.isProcessing = false)
    (h3 : stepIdsFresh s) :
    ((sendMessage g s content (.ok data)).agentStatus = .ready ∧
      ∃ aid extra,
        (sendMessage g s content (.ok data)).messages = s.messages ++
          [{ id := s.nextId, role := .user, content := content,
             timestamp := s.now },
           { id := aid, role := .assistant,
             content := jsOrString data.response "I processed your request.",
             timestamp := s.now }] ∧
        (sendMessage g s content (.ok data)).thinkingSteps = s.thinkingSteps ++
          [{ id := s.nextId + 1, type := .reasoning,
             title := "Processing Request",
             description := "Analyzing your message...", status := .completed,
             duration := some 1200 }] ++ extra) ∧
    ((uploadFile g s (some f) q (.ok data)).agentStatus = .ready ∧
      ∃ aid extra,
        (uploadFile g s (some f) q (.ok data)).messages = s.messages ++
          [{ id := s.nextId, role := .user,
             content := if q = "" then "Analyze this file" else q,
             timestamp := s.now, file := some f.name },
           { id := aid, role := .assistant,
             content := jsOrString data.response "File processed successfully.",
             timestamp := s.now }] ∧
        (uploadFile g s (some f) q (.ok data)).thinkingSteps =
          s.thinkingSteps ++
          [{ id := s.nextId + 1, type := fileDisplayType f.type,
             title := if fileDisplayType f.type = .audio then
                        "Audio Processing"
                      else "Document Processing",
             description := "Processed " ++ f.name, status := .completed,
             duration := some 2500 }] ++ extra) := by
  have hne := stepIdsFresh_ne s h3 (s.nextId + 1) (Nat.le_succ _)
  cases htr : jsTruthy data.intermediate_steps with
  | true =>
    have e1 := sendMessage_ok_steps_spec g s content data h1 h2 htr
    have e2 := uploadFile_ok_steps_spec g s f q data h2 htr
    constructor
    · refine ⟨by rw [e1], (parseIntermediateSteps g (s.nextId + 2)
        (data.intermediate_steps.getD "")).2, (parseIntermediateSteps g
        (s.nextId + 2) (data.intermediate_steps.getD "")).1, ?_, ?_⟩ <;>
        (rw [e1]; try simp [map_updStep_of_ne _ _ _ hne])
    · refine ⟨by rw [e2], (parseIntermediateSteps g (s.nextId + 2)
        (data.intermediate_steps.getD "")).2, (parseIntermediateSteps g
        (s.nextId + 2) (data.intermediate_steps.getD "")).1, ?_, ?_⟩ <;>
        (rw [e2]; try simp [map_updStep_of_ne _ _ _ hne])
  | false =>
    have e1 := sendMessage_ok_nosteps_spec g s content data h1 h2 htr
    have e2 := uploadFile_ok_nosteps_spec g s f q data h2 htr
    constructor
    · refine ⟨by rw [e1], s.nextId + 2, [], ?_, ?_⟩ <;>
        (rw [e1]; try simp [map_updStep_of_ne _ _ _ hne])
    · refine ⟨by rw [e2], s.nextId + 2, [], ?_, ?_⟩ <;>
        (rw [e2]; try simp [map_updStep_of_ne _ _ _ hne])

/-- Claim C3 witness: success behavior at concrete inputs. -/
theorem submit_success_behavior_witness :
    (sendMessage g0 initialState "hello" (.ok r0)).agentStatus = .ready ∧
    (uploadFile g0 initialState (some f0) "q" (.ok r0)).agentStatus = .ready :=
  ⟨(submit_success_behavior g0 initialState "hello" f0 "q" r0 (by decide) rfl
      (by decide)).1.1,
   (submit_success_behavior g0 initialState "hello" f0 "q" r0 (by decide) rfl
      (by decide)).2.1⟩

/-- Claim C9: when a successful response has an absent or empty
`intermediate_steps` field, no synthesized steps are appended; the only change
to the step sequence is the in-place completion of the step created at request
start. -/
theorem success_empty_trace_frame (g : Nat → Nat) (s : AgentState)
    (content : String) (f : FileMeta) (q : String) (data : ProcessResponse)
    (h1 : jsTrim content ≠ "") (h2 : s.isProcessing = false)
    (h3 : stepIdsFresh s)
    (h4 : data.intermediate_steps = none ∨ data.intermediate_steps = some "") :
    (sendMessage g s content (.ok data)).thinkingSteps = s.thinkingSteps ++
      [{ id := s.nextId + 1, type := .reasoning, title := "Processing Request",
         description := "Analyzing your message...", status := .completed,
         duration := some 1200 }] ∧
    (uploadFile g s (some f) q (.ok data)).thinkingSteps = s.thinkingSteps ++
      [{ id := s.nextId + 1, type := fileDisplayType f.type,
         title := if fileDisplayType f.type = .audio then "Audio Processing"
                  else "Document Processing",
         description := "Processed " ++ f.name, status := .completed,
         duration := some 2500 }] := by
  have hne := stepIdsFresh_ne s h3 (s.nextId + 1) (Nat.le_succ _)
  have htr : jsTruthy data.intermediate_steps = false := by
    rcases h4 with h | h <;> simp [jsTruthy, h]
  have e1 := sendMessage_ok_nosteps_spec g s content data h1 h2 htr
  have e2 := uploadFile_ok_nosteps_spec g s f q data h2 htr
  constructor
  · rw [e1]; try simp [map_updStep_of_ne _ _ _ hne]
  · rw [e2]; try simp [map_updStep_of_ne _ _ _ hne]

/-- Claim C9 witness: a response with no trace appends only the completed
in-flight step. -/
theorem success_empty_trace_frame_witness :
    (sendMessage g0 initialState "hello" (.ok r1)).thinkingSteps =
      initialState.thinkingSteps ++
      [{ id := initialState.nextId + 1, type := .reasoning,
         title := "Processing Request",
         description := "Analyzing your message...", status := .completed,
         duration := some 1200 }] :=
  (success_empty_trace_frame g0 initialState "hello" f0 "q" r1 (by decide) rfl
    (by decide) (Or.inl rfl)).1

end SentinAI

namespace SentinAI

/-- Claim C8: the display category of the initial step of submitFile is
computed from the declared media type exactly as: audio prefix → audio,
`application/pdf` or image prefix → document, otherwise general; and the step
appended at request start carries that category. -/
theorem uploadFile_file_category (mime : String) (g : Nat → Nat)
    (s : AgentState) (f : FileMeta) (q : String)
    (result : Except Unit ProcessResponse) :
    (fileDisplayType mime =
      (if jsStartsWith mime "audio" then .audio
       else if mime = "application/pdf" || jsStartsWith mime "image" then
         .document
       else .general)) ∧
    (s.isProcessing = false → stepIdsFresh s →
      ∃ st rest, (uploadFile g s (some f) q result).thinkingSteps =
          s.thinkingSteps ++ st :: rest ∧
        st.type = fileDisplayType f.type ∧ st.id = s.nextId + 1) := by
  constructor
  · by_cases h2 : mime = "application/pdf"
    · subst h2; decide
    · cases h1 : jsStartsWith mime "audio" <;>
        cases h3 : jsStartsWith mime "image" <;>
        simp [fileDisplayType, h1, h2, h3]
  · intro h2 h3
    have hne := stepIdsFresh_ne s h3 (s.nextId + 1) (Nat.le_succ _)
    cases result with
    | error e =>
      refine ⟨{ id := s.nextId + 1, type := fileDisplayType f.type,
                title := if fileDisplayType f.type = .audio then
                           "Audio Processing"
                         else "Document Processing",
                description := "Uploading " ++ f.name ++ "...",
                status := .error }, [], ?_, rfl, rfl⟩
      rw [show (Except.error e : Except Unit ProcessResponse) =
        Except.error () from rfl, uploadFile_error_spec g s f q h2]
      simp [map_updStep_of_ne _ _ _ hne]
    | ok data =>
      cases htr : jsTruthy data.intermediate_steps with
      | false =>
        refine ⟨{ id := s.nextId + 1, type := fileDisplayType f.type,
                  title := if fileDisplayType f.type = .audio then
                             "Audio Processing"
                           else "Document Processing",
                  description := "Processed " ++ f.name,
                  status := .completed, duration := some 2500 }, [],
                ?_, rfl, rfl⟩
        rw [uploadFile_ok_nosteps_spec g s f q data h2 htr]
        simp [map_updStep_of_ne _ _ _ hne]
      | true =>
        refine ⟨{ id := s.nextId + 1, type := fileDisplayType f.type,
                  title := if fileDisplayType f.type = .audio then
                             "Audio Processing"
                           else "Document Processing",
                  description := "Processed " ++ f.name,
                  status := .completed, duration := some 2500 },
                (parseIntermediateSteps g (s.nextId + 2)
                  (data.intermediate_steps.getD "")).1, ?_, rfl, rfl⟩
        rw [uploadFile_ok_steps_spec g s f q data h2 htr]
        simp [map_updStep_of_ne _ _ _ hne]

/-- Claim C8 witness: the classification equation at a concrete media type and
the appended step at concrete inputs. -/
theorem uploadFile_file_category_witness :
    (fileDisplayType "audio/mpeg" =
      (if jsStartsWith "audio/mpeg" "audio" then .audio
       else if "audio/mpeg" = "application/pdf" ||
           jsStartsWith "audio/mpeg" "image" then .document
       else .general)) ∧
    ∃ st rest, (uploadFile g0 initialState (some f0) "q"
        (.ok r0)).thinkingSteps = initialState.thinkingSteps ++ st :: rest ∧
      st.type = fileDisplayType f0.type ∧ st.id = initialState.nextId + 1 :=
  ⟨(uploadFile_file_category "audio/mpeg" g0 initialState f0 "q" (.ok r0)).1,
   (uploadFile_file_category "audio/mpeg" g0 initialState f0 "q"
      (.ok r0)).2 rfl (by decide)⟩

end SentinAI

namespace SentinAI

/-- The state reached after a failed text submission from the fresh state, but
before the 3000 ms reset timer fires: status is error, no request in flight. -/
def sErr : AgentState := sendMessage g0 initialState "hi" (Except.error ())

/-- Claim C2 counterexample: from the reachable error-window state, a submit
is accepted (messages grow, state changes) even though agent status is not
ready, and it performs the transition error → thinking, which the transition list
of the claim excludes. -/
theorem status_machine_counterexample :
    sErr.agentStatus = AgentStatus.error ∧
    sErr.isProcessing = false ∧
    sendMessage g0 sErr "again" (.ok r0) ≠ sErr ∧
    (sendMessage g0 sErr "again" (.ok r0)).messages.length =
      sErr.messages.length + 2 ∧
    (sendMessage g0 sErr "again" (.ok r0)).statusLog = sErr.statusLog ++
      [AgentStatus.thinking, AgentStatus.executing, AgentStatus.ready] := by
  decide

/-- Claim C2 as amended: a submit is gated only by `isProcessing` (a no-op
while it is true); an accepted submit assigns thinking then executing, then
ready on success or error on failure, whatever the starting status; and the
3000 ms timer callback assigns ready. -/
theorem status_machine_amended (g : Nat → Nat) (s : AgentState)
    (content q : String) (file : Option FileMeta) (f : FileMeta)
    (data : ProcessResponse) (result : Except Unit ProcessResponse) :
    (s.isProcessing = true →
      sendMessage g s content result = s ∧ uploadFile g s file q result = s) ∧
    (s.isProcessing = false → jsTrim content ≠ "" →
      (sendMessage g s content (.ok data)).statusLog = s.statusLog ++
        [AgentStatus.thinking, AgentStatus.executing, AgentStatus.ready] ∧
      (sendMessage g s content (.error ())).statusLog = s.statusLog ++
        [AgentStatus.thinking, AgentStatus.executing, AgentStatus.error] ∧
      (uploadFile g s (some f) q (.ok data)).statusLog = s.statusLog ++
        [AgentStatus.thinking, AgentStatus.executing, AgentStatus.ready] ∧
      (uploadFile g s (some f) q (.error ())).statusLog = s.statusLog ++
        [AgentStatus.thinking, AgentStatus.executing, AgentStatus.error]) ∧
    ((fireErrorReset s).agentStatus = .ready ∧
      (fireErrorReset s).statusLog = s.statusLog ++ [AgentStatus.ready]) := by
  refine ⟨fun h => ⟨by simp [sendMessage, h], ?_⟩, fun h2 h1 => ?_, rfl, rfl⟩
  · cases file with
    | none => rfl
    | some f' => simp [uploadFile, h]
  · refine ⟨?_, ?_, ?_, ?_⟩
    · cases htr : jsTruthy data.intermediate_steps with
      | false => rw [sendMessage_ok_nosteps_spec g s content data h1 h2 htr]
      | true => rw [sendMessage_ok_steps_spec g s content data h1 h2 htr]
    · rw [sendMessage_error_spec g s content h1 h2]
    · cases htr : jsTruthy data.intermediate_steps with
      | false => rw [uploadFile_ok_nosteps_spec g s f q data h2 htr]
      | true => rw [uploadFile_ok_steps_spec g s f q data h2 htr]
    · rw [uploadFile_error_spec g s f q h2]

/-- Claim C2 witness: the amended machine at concrete inputs. -/
theorem status_machine_amended_witness :
    sendMessage g0 busyState "hi" (.ok r0) = busyState ∧
    (sendMessage g0 initialState "hi" (.ok r0)).statusLog =
      initialState.statusLog ++
      [AgentStatus.thinking, AgentStatus.executing, AgentStatus.ready] ∧
    (fireErrorReset sErr).agentStatus = .ready :=
  ⟨((status_machine_amended g0 busyState "hi" "q" none f0 r0 (.ok r0)).1
      rfl).1,
   ((status_machine_amended g0 initialState "hi" "q" none f0 r0
      (.ok r0)).2.1 rfl (by decide)).1,
   (status_machine_amended g0 sErr "hi" "q" none f0 r0 (.ok r0)).2.2.1⟩

end SentinAI
